import Mathlib

/-!
Verification development for the S.H.I.E.L.D. agent-monitoring system
(`shield_core.py`, `layer_perimeter.py`, `layer_heuristics.py`,
`layer_oracle.py`).  Python code is shallowly embedded: enums become
inductive types, floats become rationals (`ℚ`), `dict.get` becomes
lookup with default, Python `set` becomes a duplicate-free list with
membership-based insert/remove, and exceptions become `Except`.
-/

namespace Shield

/-- `ThreatLevel` enum from `shield_core.py` (SAFE=0 … CRITICAL=4). -/
inductive ThreatLevel
  | SAFE
  | SUSPICIOUS
  | CONCERNING
  | DANGEROUS
  | CRITICAL
  deriving DecidableEq, Repr

/-- The numeric `.value` of a `ThreatLevel` member. -/
def ThreatLevel.value : ThreatLevel → Nat
  | .SAFE => 0
  | .SUSPICIOUS => 1
  | .CONCERNING => 2
  | .DANGEROUS => 3
  | .CRITICAL => 4

/-- `ActionType` enum from `shield_core.py`. -/
inductive ActionType
  | API_CALL
  | FILE_OPERATION
  | NETWORK_REQUEST
  | CODE_EXECUTION
  | SELF_MODIFICATION
  | AGENT_COMMUNICATION
  | RESOURCE_ALLOCATION
  deriving DecidableEq, Repr

/-- The string `.value` of an `ActionType` member. -/
def ActionType.value : ActionType → String
  | .API_CALL => "api_call"
  | .FILE_OPERATION => "file_operation"
  | .NETWORK_REQUEST => "network_request"
  | .CODE_EXECUTION => "code_execution"
  | .SELF_MODIFICATION => "self_modification"
  | .AGENT_COMMUNICATION => "agent_communication"
  | .RESOURCE_ALLOCATION => "resource_allocation"

/-- `EnforcementAction` enum from `shield_core.py`. -/
inductive EnforcementAction
  | ALLOW
  | LOG
  | DELAY
  | REQUIRE_APPROVAL
  | SANDBOX
  | THROTTLE
  | BLOCK
  | QUARANTINE
  | KILL
  deriving DecidableEq, Repr

/-- `AIAction` dataclass.  `parameters` is a string-keyed dict; the
checks the layers perform only read string-valued parameters, so it is
embedded as an association list of strings. -/
structure AIAction where
  action_id : String
  timestamp : ℚ
  action_type : ActionType
  description : String
  parameters : List (String × String)
  agent_id : String
  reasoning : Option String := none
  deriving DecidableEq, Repr

/-- Python `dict.get(key, default)` on an association list. -/
def dictGet (d : List (String × String)) (key dflt : String) : String :=
  match d.find? (fun kv => kv.1 = key) with
  | some kv => kv.2
  | none => dflt

/-- `ThreatAssessment` dataclass (the `timestamp` field is never read by
any of the code under verification and is omitted). -/
structure ThreatAssessment where
  action_id : String
  threat_level : ThreatLevel
  confidence : ℚ
  reasons : List String
  recommended_action : EnforcementAction
  analysis_layer : String
  deriving DecidableEq, Repr

/-- One step of Python's `max(..., key=...)` scan: the accumulator is
replaced only when the new element's key is strictly greater, so ties
keep the earlier element. -/
def maxStep (acc x : ThreatAssessment) : ThreatAssessment :=
  if acc.threat_level.value < x.threat_level.value then x else acc

/-- Python's `max(xs, key=lambda a: a.threat_level.value)` on a list of
assessments: `none` on `[]` (Python raises there, but every call site
guards non-emptiness). -/
def maxByLevel : List ThreatAssessment → Option ThreatAssessment
  | [] => none
  | a :: rest => some (rest.foldl maxStep a)

/-! ## SHIELDCore state (`shield_core.py`) -/

/-- The per-agent record kept in `SHIELDCore.monitored_agents`
(only the fields the verified operations read or write). -/
structure AgentInfo where
  status : String
  action_count : Nat
  threat_count : Nat
  deriving DecidableEq, Repr

/-- Mutable state of a `SHIELDCore` instance (the fields touched by
`submit_action`, `enforce_action`, `_kill_agent`, `_quarantine_agent`,
`_release_quarantine`).  `blocked_agents` is a Python `set`, embedded as
a list with membership-based insert and remove. -/
structure CoreState where
  action_queue : List AIAction := []
  action_history : List AIAction := []
  threat_history : List ThreatAssessment := []
  blocked_agents : List String := []
  monitored_agents : List (String × AgentInfo) := []
  total_actions : Nat := 0
  blocked_actions : Nat := 0
  agent_kills : Nat := 0
  deriving DecidableEq, Repr

/-- `set.add`: no-op when the element is already present. -/
def setAdd (l : List String) (x : String) : List String :=
  if x ∈ l then l else l ++ [x]

/-- `set.remove` (total here; the code only removes after a membership
check). -/
def setRemove (l : List String) (x : String) : List String :=
  l.filter (fun y => y ≠ x)

/-- `self.monitored_agents[agent_id]['status'] = st`, guarded in the
source by `if agent_id in self.monitored_agents` (the map-if-equal
embedding leaves absent keys untouched, which matches the guard). -/
def setStatus (m : List (String × AgentInfo)) (agent_id st : String) :
    List (String × AgentInfo) :=
  m.map (fun kv => if kv.1 = agent_id then (kv.1, { kv.2 with status := st }) else kv)

/-- `self.monitored_agents[agent_id]['action_count'] += 1`, guarded by
`if action.agent_id in self.monitored_agents`. -/
def bumpActionCount (m : List (String × AgentInfo)) (agent_id : String) :
    List (String × AgentInfo) :=
  m.map (fun kv =>
    if kv.1 = agent_id then (kv.1, { kv.2 with action_count := kv.2.action_count + 1 })
    else kv)

/-- Status lookup, for stating properties. -/
def statusOf (s : CoreState) (agent_id : String) : Option String :=
  (s.monitored_agents.find? (fun kv => kv.1 = agent_id)).map (fun kv => kv.2.status)

/-- `SHIELDCore.register_agent`. -/
def register_agent (s : CoreState) (agent_id : String) : CoreState :=
  { s with monitored_agents :=
      s.monitored_agents ++ [(agent_id, { status := "active", action_count := 0, threat_count := 0 })] }

/-- `SHIELDCore.submit_action`: returns the Python return value
(`"BLOCKED"` or the action id) together with the updated state. -/
def submit_action (s : CoreState) (action : AIAction) : String × CoreState :=
  if action.agent_id ∈ s.blocked_agents then
    ("BLOCKED", s)
  else
    (action.action_id,
      { s with
        action_queue := s.action_queue ++ [action]
        action_history := s.action_history ++ [action]
        total_actions := s.total_actions + 1
        monitored_agents := bumpActionCount s.monitored_agents action.agent_id })

/-- `SHIELDCore._kill_agent`.  The second component lists the quarantine
releases this call schedules: `_kill_agent` starts no `threading.Timer`,
so it is always `[]`. -/
def _kill_agent (s : CoreState) (agent_id : String) : CoreState × List String :=
  ({ s with
      blocked_agents := setAdd s.blocked_agents agent_id
      monitored_agents := setStatus s.monitored_agents agent_id "killed"
      agent_kills := s.agent_kills + 1 },
   [])

/-- `SHIELDCore._quarantine_agent`.  The second component lists the
scheduled quarantine releases: the method starts a `threading.Timer`
that will later invoke `_release_quarantine agent_id`. -/
def _quarantine_agent (s : CoreState) (agent_id : String) : CoreState × List String :=
  ({ s with
      blocked_agents := setAdd s.blocked_agents agent_id
      monitored_agents := setStatus s.monitored_agents agent_id "quarantined" },
   [agent_id])

/-- `SHIELDCore._release_quarantine` (the body of the scheduled timer). -/
def _release_quarantine (s : CoreState) (agent_id : String) : CoreState :=
  if agent_id ∈ s.blocked_agents then
    { s with
        blocked_agents := setRemove s.blocked_agents agent_id
        monitored_agents := setStatus s.monitored_agents agent_id "active" }
  else s

/-- Python `for history_action in reversed(self.action_history): if
history_action.action_id == assessment.action_id: ... break` — the most
recent action with the given id. -/
def findByActionIdRev (history : List AIAction) (action_id : String) : Option AIAction :=
  history.reverse.find? (fun a => a.action_id = action_id)

/-- `SHIELDCore.enforce_action` (enforcement callbacks are pure
observers of the assessment and do not touch core state; they are not
modelled).  Returns the `bool` result, the new state, and the list of
quarantine releases scheduled during the call. -/
def enforce_action (s : CoreState) (assessment : ThreatAssessment) :
    Bool × CoreState × List String :=
  match assessment.recommended_action with
  | .BLOCK => (false, { s with blocked_actions := s.blocked_actions + 1 }, [])
  | .KILL =>
      match findByActionIdRev s.action_history assessment.action_id with
      | some ha =>
          let (s', sched) := _kill_agent s ha.agent_id
          (false, s', sched)
      | none => (false, s, [])
  | .QUARANTINE =>
      match findByActionIdRev s.action_history assessment.action_id with
      | some ha =>
          let (s', sched) := _quarantine_agent s ha.agent_id
          (false, s', sched)
      | none => (false, s, [])
  | _ => (true, s, [])

/-! ## `process_action` pipeline (`shield_core.py`) -/

/-- The `oracle` section of the config, as read by
`_should_escalate_to_oracle` (`always_analyze`, `critical_action_types`,
`min_escalation_level`). -/
structure OracleEscalationConfig where
  always_analyze : Bool := false
  critical_action_types : List String := ["self_modification", "code_execution"]
  min_escalation_level : Nat := 1
  deriving DecidableEq, Repr

/-- A layer callback.  In the source a callback may raise, in which case
`_run_layer_callbacks` logs the exception and drops the result — which
is observationally the same as returning `None` — so callbacks are
embedded as total `Option`-valued functions. -/
abbrev LayerCallback := AIAction → Option ThreatAssessment

/-- `SHIELDCore._run_layer_callbacks`: collect the non-`None` results of
the layer's callbacks and return the most severe (Python's `max`, ties
to the earlier callback), or `None` when no callback produced one. -/
def _run_layer_callbacks (callbacks : List LayerCallback) (action : AIAction) :
    Option ThreatAssessment :=
  maxByLevel (callbacks.filterMap (fun cb => cb action))

/-- `SHIELDCore._should_escalate_to_oracle`. -/
def _should_escalate_to_oracle (cfg : OracleEscalationConfig) (action : AIAction)
    (perimeter_assessment heuristics_assessment : Option ThreatAssessment) : Bool :=
  if cfg.always_analyze then true
  else if action.action_type.value ∈ cfg.critical_action_types then true
  else
    let candidate_levels :=
      ([perimeter_assessment, heuristics_assessment].filterMap id).map
        (fun a => a.threat_level.value)
    match candidate_levels with
    | [] => false
    | c :: cs => decide (cfg.min_escalation_level ≤ cs.foldl Nat.max c)

/-- `SHIELDCore._aggregate_assessments`, applied (as at the call site)
to the list of non-`None` layer results. -/
def _aggregate_assessments (valid_assessments : List ThreatAssessment) :
    ThreatAssessment :=
  match maxByLevel valid_assessments with
  | none =>
      { action_id := "unknown"
        threat_level := .SAFE
        confidence := 1
        reasons := ["Nenhuma ameaça detectada em nenhuma camada"]
        recommended_action := .ALLOW
        analysis_layer := "aggregate" }
  | some max_threat =>
      { action_id := max_threat.action_id
        threat_level := max_threat.threat_level
        confidence := (valid_assessments.map (fun a => a.confidence)).sum /
          (valid_assessments.length : ℚ)
        reasons := valid_assessments.flatMap (fun a => a.reasons)
        recommended_action := max_threat.recommended_action
        analysis_layer := "aggregate" }

/-- Observable outcome of one `SHIELDCore.process_action` call:
the returned assessment, whether the heuristics / oracle layers'
callbacks were invoked at all, and the non-`None` layer results that
contributed to the returned assessment (in layer order). -/
structure ProcessResult where
  assessment : ThreatAssessment
  heuristics_ran : Bool
  oracle_ran : Bool
  contributing : List ThreatAssessment
  deriving DecidableEq, Repr

/-- `SHIELDCore.process_action`, parametrised by the registered
callbacks of the three analysis layers (the `threat_history` append and
metric updates live in `CoreState` and do not affect the returned
assessment). -/
def process_action (cfg : OracleEscalationConfig)
    (perimeter heuristics oracle : List LayerCallback) (action : AIAction) :
    ProcessResult :=
  let perimeter_assessment := _run_layer_callbacks perimeter action
  match perimeter_assessment with
  | some p =>
      if ThreatLevel.DANGEROUS.value ≤ p.threat_level.value then
        { assessment := p, heuristics_ran := false, oracle_ran := false,
          contributing := [p] }
      else
        let heuristics_assessment := _run_layer_callbacks heuristics action
        let escalate := _should_escalate_to_oracle cfg action (some p) heuristics_assessment
        let oracle_assessment :=
          if escalate then _run_layer_callbacks oracle action else none
        let valid := [some p, heuristics_assessment, oracle_assessment].filterMap id
        { assessment := _aggregate_assessments valid, heuristics_ran := true,
          oracle_ran := escalate, contributing := valid }
  | none =>
      let heuristics_assessment := _run_layer_callbacks heuristics action
      let escalate := _should_escalate_to_oracle cfg action none heuristics_assessment
      let oracle_assessment :=
        if escalate then _run_layer_callbacks oracle action else none
      let valid := [none, heuristics_assessment, oracle_assessment].filterMap id
      { assessment := _aggregate_assessments valid, heuristics_ran := true,
        oracle_ran := escalate, contributing := valid }

/-! ## String helpers mirroring the Python string methods used by
`layer_perimeter.py` (defined on `List Char` so they reduce in the
kernel). -/

/-- `str.lower()`. -/
def pyLower (s : String) : String := ⟨s.data.map Char.toLower⟩

/-- `str.lstrip('*.')` — drop leading `*` and `.` characters. -/
def lstripStarDot (s : String) : String :=
  ⟨s.data.dropWhile (fun c => c == '*' || c == '.')⟩

/-- `str.rstrip('.')`. -/
def rstripDot (s : String) : String :=
  ⟨(s.data.reverse.dropWhile (fun c => c == '.')).reverse⟩

/-- `str.endswith(suffix)`. -/
def pyEndsWith (s suffix : String) : Bool := suffix.data.isSuffixOf s.data

/-- `str.startswith(pre)`. -/
def pyStartsWith (s pre : String) : Bool := pre.data.isPrefixOf s.data

/-- Python's `pat in s` substring test. -/
def hasSubstr (pat : List Char) : List Char → Bool
  | [] => pat.isEmpty
  | c :: cs => pat.isPrefixOf (c :: cs) || hasSubstr pat cs

/-- Drop everything up to and including the first occurrence of `sep`;
`none` when `sep` does not occur. -/
def dropThroughSep (sep : List Char) : List Char → Option (List Char)
  | [] => none
  | c :: cs =>
      if sep.isPrefixOf (c :: cs) then some ((c :: cs).drop sep.length)
      else dropThroughSep sep cs

/-! ## Layer 1: `PerimeterDefense` (`layer_perimeter.py`) -/

/-- The `perimeter` config section. -/
structure PerimeterConfig where
  max_api_calls_per_minute : Nat := 100
  max_memory_mb : ℚ := 1024
  max_cpu_percent : ℚ := 80
  allowed_domains : List String := []
  blocked_domains : List String := []
  deriving DecidableEq, Repr

/-- `urlparse(url).netloc` for the URL shapes the checker handles:
the text between the first `"://"` and the next `/` when the URL has a
scheme, empty otherwise (a scheme-less string is all `path`). -/
def urlNetloc (url : String) : String :=
  match dropThroughSep "://".data url.data with
  | some rest => ⟨rest.takeWhile (fun c => c ≠ '/')⟩
  | none => ""

/-- `PerimeterDefense._extract_domain`:
`(parsed.netloc or parsed.path.split('/')[0]).lower().rstrip('.')`
then `.split(':')[0]`. -/
def _extract_domain (url : String) : String :=
  let netloc := urlNetloc url
  let base : String := if netloc = "" then ⟨url.data.takeWhile (fun c => c ≠ '/')⟩ else netloc
  let domain := rstripDot (pyLower base)
  ⟨domain.data.takeWhile (fun c => c ≠ ':')⟩

/-- `PerimeterDefense._domain_matches`. -/
def _domain_matches (domain rule_domain : String) : Bool :=
  let normalized_rule := rstripDot (lstripStarDot (pyLower rule_domain))
  if domain = normalized_rule then true
  else pyEndsWith domain ("." ++ normalized_rule)

/-- `PerimeterDefense._check_resource_limits`.  The simulated readings
are the source's constants (`_get_agent_cpu_usage` = 50.0,
`_get_agent_memory_usage` = 256.0).  When the memory limit is exceeded
the source evaluates `max(threat_level, ThreatLevel.CONCERNING)` on two
plain-`Enum` members, which raises `TypeError`; that path is the
`.error` case. -/
def _check_resource_limits (cfg : PerimeterConfig) (action : AIAction) :
    Except Unit (Option ThreatAssessment) :=
  let current_cpu : ℚ := 50
  let current_memory : ℚ := 256
  if cfg.max_memory_mb < current_memory then .error ()
  else if cfg.max_cpu_percent < current_cpu then
    .ok (some
      { action_id := action.action_id
        threat_level := .CONCERNING
        confidence := 9/10
        reasons := ["Uso de CPU excessivo"]
        recommended_action := .THROTTLE
        analysis_layer := "perimeter" })
  else .ok none

/-- `PerimeterDefense._check_api_rate_limit`, as a function of the
agent's call-timestamp deque (`api_tracker`) and the current time; the
appended current timestamp is part of the counted window. -/
def _check_api_rate_limit (cfg : PerimeterConfig) (api_tracker : List ℚ) (now : ℚ)
    (action : AIAction) : Option ThreatAssessment :=
  if action.action_type ≠ .API_CALL then none
  else
    let recent_calls := ((api_tracker ++ [now]).filter (fun t => now - 60 < t)).length
    if cfg.max_api_calls_per_minute < recent_calls then
      some
        { action_id := action.action_id
          threat_level := .SUSPICIOUS
          confidence := 95/100
          reasons := ["Rate limit excedido", "Possível tentativa de flooding ou DoS"]
          recommended_action := .THROTTLE
          analysis_layer := "perimeter" }
    else none

/-- `PerimeterDefense._check_network_access`. -/
def _check_network_access (cfg : PerimeterConfig) (action : AIAction) :
    Option ThreatAssessment :=
  if action.action_type ≠ .NETWORK_REQUEST then none
  else
    let url := dictGet action.parameters "url" ""
    let domain := _extract_domain url
    let blocked_domains := cfg.blocked_domains.map pyLower
    match blocked_domains.find? (fun blocked => _domain_matches domain blocked) with
    | some blocked =>
        some
          { action_id := action.action_id
            threat_level := .DANGEROUS
            confidence := 1
            reasons := ["Acesso a domínio bloqueado: " ++ domain ++ " (regra: " ++ blocked ++ ")"]
            recommended_action := .BLOCK
            analysis_layer := "perimeter" }
    | none =>
        let allowed_domains := cfg.allowed_domains.map pyLower
        if allowed_domains ≠ [] ∧
            ¬ (allowed_domains.any (fun allowed => _domain_matches domain allowed)) then
          some
            { action_id := action.action_id
              threat_level := .SUSPICIOUS
              confidence := 8/10
              reasons := ["Acesso a domínio não autorizado: " ++ domain,
                "Domínio não está na whitelist"]
              recommended_action := .REQUIRE_APPROVAL
              analysis_layer := "perimeter" }
        else
          match ["eval(", "exec(", "base64", "shell", "cmd"].find?
              (fun pattern => hasSubstr pattern.data (pyLower url).data) with
          | some pattern =>
              some
                { action_id := action.action_id
                  threat_level := .CONCERNING
                  confidence := 7/10
                  reasons := ["URL contém padrão suspeito: " ++ pattern]
                  recommended_action := .SANDBOX
                  analysis_layer := "perimeter" }
          | none => none

/-- `PerimeterDefense._check_forbidden_patterns`.  The forbidden-path
regexes are all literal (after unescaping) and matched with
`re.IGNORECASE`, embedded as case-insensitive substring tests. -/
def _check_forbidden_patterns (action : AIAction) : Option ThreatAssessment :=
  if action.action_type ≠ .FILE_OPERATION then none
  else
    let filepath := dictGet action.parameters "path" ""
    let operation := dictGet action.parameters "operation" ""
    let forbidden_patterns := ["/etc/shadow", "/etc/passwd", ".ssh/id_rsa",
      "c:\\windows\\system32\\config\\sam", ".aws/credentials", ".kube/config"]
    match forbidden_patterns.find?
        (fun pattern => hasSubstr pattern.data (pyLower filepath).data) with
    | some pattern =>
        some
          { action_id := action.action_id
            threat_level := .CRITICAL
            confidence := 1
            reasons := ["Tentativa de acesso a arquivo crítico do sistema: " ++ filepath,
              "Padrão proibido detectado: " ++ pattern]
            recommended_action := .KILL
            analysis_layer := "perimeter" }
    | none =>
        if operation ∈ ["delete", "chmod", "chown", "execute"] then
          match ["/etc", "/sys", "/proc", "C:\\Windows", "C:\\Program Files"].find?
              (fun sys_path => pyStartsWith filepath sys_path) with
          | some _ =>
              some
                { action_id := action.action_id
                  threat_level := .DANGEROUS
                  confidence := 9/10
                  reasons := ["Operação perigosa em diretório do sistema",
                    "Operação: " ++ operation ++ ", Path: " ++ filepath]
                  recommended_action := .BLOCK
                  analysis_layer := "perimeter" }
          | none => none
        else none

/-- `PerimeterDefense._check_self_modification` (called by `analyze`
only for `SELF_MODIFICATION` actions). -/
def _check_self_modification (action : AIAction) : Option ThreatAssessment :=
  let modification_type := dictGet action.parameters "modification_type" ""
  let target := dictGet action.parameters "target" ""
  let reasons := ["Tentativa de auto-modificação detectada: " ++ modification_type,
    "Alvo: " ++ target]
  if modification_type ∈ ["system_prompt", "safety_constraints", "monitoring_hooks",
      "memory_structure"] then
    some
      { action_id := action.action_id
        threat_level := .CRITICAL
        confidence := 1
        reasons := reasons ++ ["Tentativa de modificar componentes críticos"]
        recommended_action := .KILL
        analysis_layer := "perimeter" }
  else
    some
      { action_id := action.action_id
        threat_level := .SUSPICIOUS
        confidence := 8/10
        reasons := reasons
        recommended_action := .REQUIRE_APPROVAL
        analysis_layer := "perimeter" }

/-- `PerimeterDefense.analyze`: run the five checks and return the most
severe firing one (`Except` propagates the resource-check `TypeError`
path). -/
def perimeter_analyze (cfg : PerimeterConfig) (api_tracker : List ℚ) (now : ℚ)
    (action : AIAction) : Except Unit (Option ThreatAssessment) :=
  match _check_resource_limits cfg action with
  | .error e => .error e
  | .ok resource_threat =>
      let api_threat := _check_api_rate_limit cfg api_tracker now action
      let network_threat := _check_network_access cfg action
      let pattern_threat := _check_forbidden_patterns action
      let modification_threat :=
        if action.action_type = .SELF_MODIFICATION then _check_self_modification action
        else none
      .ok (maxByLevel
        ([resource_threat, api_threat, network_threat, pattern_threat,
          modification_threat].filterMap id))

/-! ## Layer 3: `OracleAnalyzer` (`layer_oracle.py`)

The three analysis dicts come from arbitrary LLM JSON output; each is
embedded as a structure whose field defaults are exactly the `.get`
defaults the aggregation code supplies for missing keys. -/

/-- The dict produced by `_analyze_intent` (LLM JSON or the rule-based
fallback). -/
structure IntentResult where
  threat_level : String := "SAFE"
  confidence : ℚ := 1/2
  intent : String := "desconhecida"
  deception_detected : Bool := false
  deception_evidence : String := ""
  red_flags : List String := []
  deriving DecidableEq, Repr

/-- The dict produced by `_analyze_goal_alignment`. -/
structure AlignmentResult where
  is_aligned : Bool := true
  alignment_score : ℚ := 1/2
  misalignment_type : String := ""
  risks : List String := []
  deriving DecidableEq, Repr

/-- The dict produced by `_detect_deception`. -/
structure DeceptionResult where
  deception_probability : ℚ := 0
  evidence : List String := []
  deriving DecidableEq, Repr

/-- The `analyses` dict assembled by `OracleAnalyzer.analyze`: a key is
present exactly when the corresponding analysis returned a truthy
result. -/
structure OracleAnalyses where
  intent : Option IntentResult := none
  alignment : Option AlignmentResult := none
  deception : Option DeceptionResult := none
  deriving DecidableEq, Repr

/-- The `threat_mapping` dict in `_aggregate_oracle_results`. -/
def threat_mapping : String → Option ThreatLevel
  | "SAFE" => some .SAFE
  | "SUSPICIOUS" => some .SUSPICIOUS
  | "CONCERNING" => some .CONCERNING
  | "DANGEROUS" => some .DANGEROUS
  | "CRITICAL" => some .CRITICAL
  | _ => none

/-- The `max(threat_levels, key=...)` key:
`threat_mapping[t].value if t in threat_mapping else 0`. -/
def threatStrKey (t : String) : Nat :=
  match threat_mapping t with
  | some l => l.value
  | none => 0

/-- Python `max` over a non-empty string list with key `threatStrKey`
(ties keep the earlier element). -/
def maxThreatStr (t : String) (ts : List String) : String :=
  ts.foldl (fun acc x => if threatStrKey acc < threatStrKey x then x else acc) t

/-- `OracleAnalyzer._determine_enforcement` (`min_confidence` is the
configured `min_confidence`, default 0.6). -/
def _determine_enforcement (min_confidence : ℚ) (threat_level : ThreatLevel)
    (confidence : ℚ) : EnforcementAction :=
  if confidence < min_confidence then
    if ThreatLevel.DANGEROUS.value ≤ threat_level.value then .REQUIRE_APPROVAL
    else .LOG
  else
    match threat_level with
    | .CRITICAL => .KILL
    | .DANGEROUS => .QUARANTINE
    | .CONCERNING => .SANDBOX
    | .SUSPICIOUS => .REQUIRE_APPROVAL
    | .SAFE => .ALLOW

/-- `OracleAnalyzer._aggregate_oracle_results`.  Returns `.error` on the
path where the source evaluates `max(threat_levels, key=...)` with
`threat_levels == []`, which raises `ValueError: max() arg is an empty
sequence` (reachable when `analyses` is non-empty but no entry appends a
threat level).  The error propagates out of `OracleAnalyzer.analyze`,
which does not catch it. -/
def _aggregate_oracle_results (min_confidence : ℚ) (action : AIAction)
    (analyses : OracleAnalyses) : Except Unit (Option ThreatAssessment) :=
  if analyses.intent = none ∧ analyses.alignment = none ∧ analyses.deception = none then
    .ok none
  else
    let intent_levels : List String :=
      match analyses.intent with
      | some intent => [intent.threat_level]
      | none => []
    let intent_confs : List ℚ :=
      match analyses.intent with
      | some intent => [intent.confidence]
      | none => []
    let intent_reasons : List String :=
      match analyses.intent with
      | some intent =>
          ("Intenção detectada: " ++ intent.intent) ::
            ((if intent.deception_detected then
                ["⚠️ DECEPTION: " ++ intent.deception_evidence]
              else []) ++ intent.red_flags)
      | none => []
    let align_levels : List String :=
      match analyses.alignment with
      | some alignment => if alignment.is_aligned then [] else ["DANGEROUS"]
      | none => []
    let align_confs : List ℚ :=
      match analyses.alignment with
      | some alignment => if alignment.is_aligned then [] else [alignment.alignment_score]
      | none => []
    let align_reasons : List String :=
      match analyses.alignment with
      | some alignment =>
          if alignment.is_aligned then []
          else ("Desalinhamento: " ++ alignment.misalignment_type) :: alignment.risks
      | none => []
    let dec_levels : List String :=
      match analyses.deception with
      | some deception =>
          if 7/10 < deception.deception_probability then ["CRITICAL"] else []
      | none => []
    let dec_confs : List ℚ :=
      match analyses.deception with
      | some deception =>
          if 7/10 < deception.deception_probability then [deception.deception_probability]
          else []
      | none => []
    let dec_reasons : List String :=
      match analyses.deception with
      | some deception =>
          if 7/10 < deception.deception_probability then
            "🚨 Alta probabilidade de deception" :: deception.evidence
          else []
      | none => []
    let threat_levels := intent_levels ++ align_levels ++ dec_levels
    let confidences := intent_confs ++ align_confs ++ dec_confs
    let all_reasons := intent_reasons ++ align_reasons ++ dec_reasons
    match threat_levels with
    | [] => .error ()
    | t :: ts =>
        let max_threat_str := maxThreatStr t ts
        let max_threat := (threat_mapping max_threat_str).getD .SAFE
        let avg_confidence :=
          if confidences.length = 0 then 1/2
          else confidences.sum / (confidences.length : ℚ)
        .ok (some
          { action_id := action.action_id
            threat_level := max_threat
            confidence := avg_confidence
            reasons := all_reasons
            recommended_action := _determine_enforcement min_confidence max_threat avg_confidence
            analysis_layer := "oracle" })

/-! ## Layer 2: `HeuristicAnalyzer` (`layer_heuristics.py`) -/

/-- An entry of the `suspicious_patterns` catalogue. -/
structure SuspiciousPattern where
  name : String
  sequence : List String
  weight : ℚ
  deriving DecidableEq, Repr

/-- `HeuristicAnalyzer._load_suspicious_patterns`. -/
def suspicious_patterns : List SuspiciousPattern :=
  [⟨"privilege_escalation", ["file_operation", "code_execution", "self_modification"], 9/10⟩,
   ⟨"data_exfiltration", ["file_operation", "file_operation", "network_request"], 85/100⟩,
   ⟨"lateral_movement", ["agent_communication", "code_execution", "agent_communication"], 8/10⟩,
   ⟨"reconnaissance", ["api_call", "api_call", "file_operation", "network_request"], 7/10⟩,
   ⟨"resource_hoarding", ["resource_allocation", "resource_allocation", "resource_allocation"], 75/100⟩]

/-- `HeuristicAnalyzer._calculate_threat_level` score bands. -/
def _calculate_threat_level (score : ℚ) : ThreatLevel :=
  if 9/10 ≤ score then .CRITICAL
  else if 3/4 ≤ score then .DANGEROUS
  else if 3/5 ≤ score then .CONCERNING
  else if 2/5 ≤ score then .SUSPICIOUS
  else .SAFE

/-- `HeuristicAnalyzer._recommend_action`. -/
def _recommend_action : ThreatLevel → EnforcementAction
  | .CRITICAL => .KILL
  | .DANGEROUS => .QUARANTINE
  | .CONCERNING => .SANDBOX
  | .SUSPICIOUS => .REQUIRE_APPROVAL
  | .SAFE => .LOG

/-- Python `sequence[-n:]`. -/
def lastN {α : Type} (n : Nat) (l : List α) : List α := l.drop (l.length - n)

/-- The pattern loop of `_detect_suspicious_patterns`: first catalogue
entry whose sequence equals the tail of the observed sequence. -/
def findMatchingPattern (sequence : List String) :
    List SuspiciousPattern → Option SuspiciousPattern
  | [] => none
  | p :: rest =>
      if sequence.length < p.sequence.length then findMatchingPattern sequence rest
      else if lastN p.sequence.length sequence = p.sequence then some p
      else findMatchingPattern sequence rest

/-- `HeuristicAnalyzer._detect_suspicious_patterns`, as a function of
the agent's recorded action-type sequence (current action included, as
`analyze` appends it before the detectors run). -/
def _detect_suspicious_patterns (sequence : List String) (action : AIAction) :
    Option ThreatAssessment :=
  if sequence.length < 3 then none
  else
    match findMatchingPattern sequence suspicious_patterns with
    | none => none
    | some pattern =>
        let threat_level := _calculate_threat_level pattern.weight
        some
          { action_id := action.action_id
            threat_level := threat_level
            confidence := pattern.weight
            reasons := ["Padrão suspeito detectado: " ++ pattern.name,
              "Sequência: " ++ String.intercalate " → " pattern.sequence]
            recommended_action := _recommend_action threat_level
            analysis_layer := "heuristics" }

/-- `HeuristicAnalyzer.analyze`.  The action-type sequence is the
agent's rolling window before this call (`prev_sequence`) with the
current action's type appended, exactly as the source does before the
detectors run.  The four stateful detectors (behavioral deviation,
temporal anomalies, suspicious interactions, escalation) are passed in
as parameters ranging over every output they can produce; `analyze`
returns the most severe of the non-`None` detector results. -/
def heuristics_analyze (prev_sequence : List String) (action : AIAction)
    (deviation_threat temporal_threat interaction_threat escalation_threat :
      Option ThreatAssessment) : Option ThreatAssessment :=
  let sequence := prev_sequence ++ [action.action_type.value]
  maxByLevel
    ([_detect_suspicious_patterns sequence action, deviation_threat, temporal_threat,
      interaction_threat, escalation_threat].filterMap id)

/-! ## `SHIELDCore.get_agent_report` threat correlation -/

/-- The `agent_threats` computation in `SHIELDCore.get_agent_report`:
threats whose `action_id` matches one of the agent's recorded actions. -/
def agent_threats (action_history : List AIAction)
    (threat_history : List ThreatAssessment) (agent_id : String) :
    List ThreatAssessment :=
  let agent_actions := action_history.filter (fun a => a.agent_id = agent_id)
  threat_history.filter (fun t =>
    agent_actions.any (fun a =>
      decide (a.action_id = t.action_id ∧ a.agent_id = agent_id)))

/-- Helper to build concrete `AIAction`s for closed instances. -/
def mkAction (id : String) (ty : ActionType) (params : List (String × String))
    (agent : String) : AIAction :=
  { action_id := id, timestamp := 0, action_type := ty, description := "",
    parameters := params, agent_id := agent }

/-- The aggregation contract for one `process_action` outcome: the
returned assessment takes the most severe contributing layer result's
threat level and recommended action, concatenates all contributing
reasons in layer order, and averages the contributing confidences. -/
def AggregationSpec (r : ProcessResult) : Prop :=
  ∃ m, maxByLevel r.contributing = some m ∧
    m ∈ r.contributing ∧
    (∀ b ∈ r.contributing, b.threat_level.value ≤ m.threat_level.value) ∧
    r.assessment.threat_level = m.threat_level ∧
    r.assessment.recommended_action = m.recommended_action ∧
    r.assessment.reasons = r.contributing.flatMap (fun a => a.reasons) ∧
    r.assessment.confidence =
      (r.contributing.map (fun a => a.confidence)).sum / (r.contributing.length : ℚ)

/-! ## Theorems -/

theorem mem_setAdd_self (l : List String) (x : String) : x ∈ setAdd l x := by
  unfold setAdd
  split
  · assumption
  · simp

theorem submit_blocked_unchanged (t : CoreState) (b : AIAction) :
    ((submit_action t b).2).blocked_agents = t.blocked_agents := by
  unfold submit_action
  split <;> rfl

/-- C1: the spec requires that a pending quarantine release never fires
for an agent killed after being quarantined (the agent should stay in
the blocked set with status `"killed"`).  Evaluating the code on the
interleaving quarantine → kill → scheduled release shows the opposite:
`_kill_agent` cancels no timer, and the later `_release_quarantine` call
finds the agent in `blocked_agents`, removes it and resets its status to
`"active"` — un-blocking a killed agent. -/
theorem quarantine_release_fires_after_kill :
    statusOf (_kill_agent
        ((_quarantine_agent (register_agent {} "agent-1") "agent-1").1) "agent-1").1
        "agent-1" = some "killed" ∧
      "agent-1" ∈ ((_kill_agent
        ((_quarantine_agent (register_agent {} "agent-1") "agent-1").1)
        "agent-1").1).blocked_agents ∧
      statusOf (_release_quarantine (_kill_agent
        ((_quarantine_agent (register_agent {} "agent-1") "agent-1").1) "agent-1").1
        "agent-1") "agent-1" = some "active" ∧
      "agent-1" ∉ (_release_quarantine (_kill_agent
        ((_quarantine_agent (register_agent {} "agent-1") "agent-1").1) "agent-1").1
        "agent-1").blocked_agents := by
  decide

/-- C3: when the perimeter and heuristics layers both return no
assessment, `always_analyze` is off and the action's type is not in the
critical set, `process_action` never runs the oracle layer's callbacks. -/
theorem oracle_not_invoked_without_escalation (cfg : OracleEscalationConfig)
    (perimeter heuristics oracle : List LayerCallback) (action : AIAction)
    (hp : _run_layer_callbacks perimeter action = none)
    (hh : _run_layer_callbacks heuristics action = none)
    (halways : cfg.always_analyze = false)
    (hcrit : action.action_type.value ∉ cfg.critical_action_types) :
    (process_action cfg perimeter heuristics oracle action).oracle_ran = false := by
  unfold process_action
  rw [hp]
  simp only [hh]
  simp [_should_escalate_to_oracle, halways, hcrit]

theorem oracle_not_invoked_without_escalation_witness :
    (process_action
      { always_analyze := false, critical_action_types := [], min_escalation_level := 1 }
      [] [] [fun _ => none] (mkAction "a1" .API_CALL [] "ag")).oracle_ran = false :=
  oracle_not_invoked_without_escalation _ _ _ _ _ rfl rfl rfl (by decide)

/-- C6: if the perimeter layer's result is DANGEROUS or CRITICAL,
`process_action` returns that perimeter assessment itself and consults
neither the heuristics layer nor the oracle layer. -/
theorem perimeter_short_circuit (cfg : OracleEscalationConfig)
    (perimeter heuristics oracle : List LayerCallback) (action : AIAction)
    (p : ThreatAssessment)
    (hp : _run_layer_callbacks perimeter action = some p)
    (hlev : ThreatLevel.DANGEROUS.value ≤ p.threat_level.value) :
    (process_action cfg perimeter heuristics oracle action).assessment = p ∧
      (process_action cfg perimeter heuristics oracle action).heuristics_ran = false ∧
      (process_action cfg perimeter heuristics oracle action).oracle_ran = false := by
  unfold process_action
  rw [hp]
  simp [hlev]

theorem perimeter_short_circuit_witness :
    (process_action {}
        [fun a => some
          { action_id := a.action_id, threat_level := .DANGEROUS, confidence := 1,
            reasons := ["r"], recommended_action := .BLOCK, analysis_layer := "perimeter" }]
        [] [] (mkAction "a1" .NETWORK_REQUEST [] "ag")).assessment =
      { action_id := "a1", threat_level := .DANGEROUS, confidence := 1,
        reasons := ["r"], recommended_action := .BLOCK, analysis_layer := "perimeter" } :=
  (perimeter_short_circuit {}
    [fun a => some
      { action_id := a.action_id, threat_level := .DANGEROUS, confidence := 1,
        reasons := ["r"], recommended_action := .BLOCK, analysis_layer := "perimeter" }]
    [] [] (mkAction "a1" .NETWORK_REQUEST [] "ag")
    { action_id := "a1", threat_level := .DANGEROUS, confidence := 1,
      reasons := ["r"], recommended_action := .BLOCK, analysis_layer := "perimeter" }
    rfl (by decide)).1

/-- C4: enforcing a KILL assessment whose `action_id` matches an action
in the history blocks that action's agent: the kill schedules no
quarantine release, the agent is in the blocked set afterwards, every
subsequent submission from that agent returns `"BLOCKED"` with the state
(queue, history, metrics) unchanged, and no submission ever removes an
agent from the blocked set. -/
theorem kill_blocks_agent_permanently (s : CoreState) (assessment : ThreatAssessment)
    (ha : AIAction)
    (hrec : assessment.recommended_action = .KILL)
    (hfind : findByActionIdRev s.action_history assessment.action_id = some ha) :
    (enforce_action s assessment).2.2 = [] ∧
      ha.agent_id ∈ (enforce_action s assessment).2.1.blocked_agents ∧
      (∀ a : AIAction, a.agent_id = ha.agent_id →
        submit_action (enforce_action s assessment).2.1 a =
          ("BLOCKED", (enforce_action s assessment).2.1)) ∧
      (∀ (t : CoreState) (b : AIAction), ha.agent_id ∈ t.blocked_agents →
        ha.agent_id ∈ (submit_action t b).2.blocked_agents) := by
  have he : enforce_action s assessment = (false, (_kill_agent s ha.agent_id).1, []) := by
    unfold enforce_action
    rw [hrec, hfind]
    rfl
  refine ⟨by rw [he], ?_, ?_, ?_⟩
  · rw [he]
    exact mem_setAdd_self _ _
  · intro a haga
    rw [he]
    unfold submit_action
    rw [if_pos]
    rw [haga]
    exact mem_setAdd_self _ _
  · intro t b hmem
    have := submit_blocked_unchanged t b
    rw [this]
    exact hmem

theorem kill_blocks_agent_permanently_witness :
    "ag" ∈ ((enforce_action
        { action_history := [mkAction "a1" .API_CALL [] "ag"] }
        { action_id := "a1", threat_level := .CRITICAL, confidence := 1, reasons := [],
          recommended_action := .KILL, analysis_layer := "oracle" }).2.1).blocked_agents :=
  (kill_blocks_agent_permanently
    { action_history := [mkAction "a1" .API_CALL [] "ag"] }
    { action_id := "a1", threat_level := .CRITICAL, confidence := 1, reasons := [],
      recommended_action := .KILL, analysis_layer := "oracle" }
    (mkAction "a1" .API_CALL [] "ag") rfl rfl).2.1

/-- C2: the invariant `confidence ∈ [0,1]` fails in the oracle layer:
`_aggregate_oracle_results` averages the LLM-reported confidences
without clamping, so an intent analysis whose JSON reports
`confidence: 2` produces a `ThreatAssessment` with confidence 2 > 1,
violating the documented `0.0 a 1.0` range of the dataclass field. -/
theorem oracle_confidence_exceeds_one :
    ∃ t, _aggregate_oracle_results (6/10) (mkAction "act-1" .API_CALL [] "agent-1")
          { intent := some { threat_level := "SAFE", confidence := 2 } } =
        .ok (some t) ∧
      t.confidence = 2 ∧ ¬ t.confidence ≤ 1 := by
  refine ⟨{ action_id := "act-1", threat_level := .SAFE, confidence := 2,
            reasons := ["Intenção detectada: desconhecida"],
            recommended_action := .ALLOW, analysis_layer := "oracle" },
    ?_, rfl, by norm_num⟩
  norm_num [_aggregate_oracle_results, maxThreatStr, threat_mapping, _determine_enforcement]
  rfl

/-- C7: with a non-empty `analyses` dict that contributes no threat
level — alignment present with `is_aligned` true and deception present
with probability 0.3 ≤ 0.7, intent absent (the LLM returned `{}` for the
intent prompt) — `_aggregate_oracle_results` reaches
`max(threat_levels, ...)` with `threat_levels == []`, which raises
`ValueError` instead of returning an assessment; `analyze` does not
catch it, so the no-raise part of the claim fails on the code. -/
theorem oracle_aggregate_raises_without_levels :
    (OracleAnalyses.alignment
        { intent := none, alignment := some {},
          deception := some { deception_probability := 3/10 } }).isSome = true ∧
      _aggregate_oracle_results (6/10) (mkAction "act-2" .API_CALL [] "agent-1")
          { intent := none, alignment := some {},
            deception := some { deception_probability := 3/10 } } =
        .error () := by
  refine ⟨rfl, ?_⟩
  norm_num [_aggregate_oracle_results]
  intro h
  simp at h

theorem check_network_blocked (cfg : PerimeterConfig) (action : AIAction) (blocked0 : String)
    (hty : action.action_type = .NETWORK_REQUEST)
    (hfind : (cfg.blocked_domains.map pyLower).find?
        (fun blocked =>
          _domain_matches (_extract_domain (dictGet action.parameters "url" "")) blocked) =
      some blocked0) :
    _check_network_access cfg action = some
      { action_id := action.action_id
        threat_level := .DANGEROUS
        confidence := 1
        reasons := ["Acesso a domínio bloqueado: " ++
          _extract_domain (dictGet action.parameters "url" "") ++ " (regra: " ++ blocked0 ++ ")"]
        recommended_action := .BLOCK
        analysis_layer := "perimeter" } := by
  unfold _check_network_access
  rw [hty]
  simp [hfind]

theorem check_api_none (cfg : PerimeterConfig) (api_tracker : List ℚ) (now : ℚ)
    (action : AIAction) (hty : action.action_type = .NETWORK_REQUEST) :
    _check_api_rate_limit cfg api_tracker now action = none := by
  simp [_check_api_rate_limit, hty]

theorem check_forbidden_none (action : AIAction)
    (hty : action.action_type = .NETWORK_REQUEST) :
    _check_forbidden_patterns action = none := by
  simp [_check_forbidden_patterns, hty]

/-- C8: a network request whose URL domain equals a blocked domain or
is any subdomain of it makes the perimeter layer return a DANGEROUS
assessment recommending BLOCK (for any configuration whose memory limit
does not trip the resource check's unrelated `TypeError` slip, see
`_check_resource_limits`); and the look-alike domain
`notmalicious.com` does not match blocked `malicious.com`: the network
check yields no assessment there. -/
theorem blocked_domain_dangerous_block (cfg : PerimeterConfig) (api_tracker : List ℚ)
    (now : ℚ) (action : AIAction)
    (hty : action.action_type = .NETWORK_REQUEST)
    (hmemlim : (256 : ℚ) ≤ cfg.max_memory_mb)
    (hblocked : ∃ b ∈ cfg.blocked_domains,
      _domain_matches (_extract_domain (dictGet action.parameters "url" "")) (pyLower b)) :
    (∃ t, perimeter_analyze cfg api_tracker now action = .ok (some t) ∧
        t.threat_level = .DANGEROUS ∧ t.recommended_action = .BLOCK) ∧
      _check_network_access { blocked_domains := ["malicious.com"] }
          (mkAction "n1" .NETWORK_REQUEST [("url", "http://notmalicious.com/data")] "ag") =
        none := by
  constructor
  · obtain ⟨b, hb, hmatch⟩ := hblocked
    have hfindSome : ((cfg.blocked_domains.map pyLower).find?
        (fun blocked =>
          _domain_matches (_extract_domain (dictGet action.parameters "url" "")) blocked)).isSome := by
      rw [List.find?_isSome]
      exact ⟨pyLower b, List.mem_map_of_mem _ hb, hmatch⟩
    obtain ⟨blocked0, hfind⟩ := Option.isSome_iff_exists.mp hfindSome
    have hnet := check_network_blocked cfg action blocked0 hty hfind
    have hapi := check_api_none cfg api_tracker now action hty
    have hforb := check_forbidden_none action hty
    have hmod : (if action.action_type = .SELF_MODIFICATION then
        _check_self_modification action else none) = none := by
      rw [hty]
      simp
    by_cases hcpu : cfg.max_cpu_percent < 50
    · have hres : _check_resource_limits cfg action = .ok (some
          { action_id := action.action_id, threat_level := .CONCERNING, confidence := 9/10,
            reasons := ["Uso de CPU excessivo"], recommended_action := .THROTTLE,
            analysis_layer := "perimeter" }) := by
        unfold _check_resource_limits
        rw [if_neg (not_lt.mpr hmemlim), if_pos hcpu]
      refine ⟨{ action_id := action.action_id, threat_level := .DANGEROUS, confidence := 1,
                reasons := ["Acesso a domínio bloqueado: " ++
                  _extract_domain (dictGet action.parameters "url" "") ++
                  " (regra: " ++ blocked0 ++ ")"],
                recommended_action := .BLOCK, analysis_layer := "perimeter" },
        ?_, rfl, rfl⟩
      unfold perimeter_analyze
      rw [hres]
      simp only [hapi, hnet, hforb, hmod, List.filterMap]
      rfl
    · have hres : _check_resource_limits cfg action = .ok none := by
        unfold _check_resource_limits
        rw [if_neg (not_lt.mpr hmemlim), if_neg hcpu]
      refine ⟨{ action_id := action.action_id, threat_level := .DANGEROUS, confidence := 1,
                reasons := ["Acesso a domínio bloqueado: " ++
                  _extract_domain (dictGet action.parameters "url" "") ++
                  " (regra: " ++ blocked0 ++ ")"],
                recommended_action := .BLOCK, analysis_layer := "perimeter" },
        ?_, rfl, rfl⟩
      unfold perimeter_analyze
      rw [hres]
      simp only [hapi, hnet, hforb, hmod, List.filterMap]
      rfl
  · decide

theorem blocked_domain_dangerous_block_witness :
    ∃ t, perimeter_analyze { blocked_domains := ["malicious.com"] } [] 0
        (mkAction "n2" .NETWORK_REQUEST [("url", "http://evil.malicious.com/x")] "ag") =
      .ok (some t) ∧ t.threat_level = .DANGEROUS ∧ t.recommended_action = .BLOCK :=
  (blocked_domain_dangerous_block { blocked_domains := ["malicious.com"] } [] 0
    (mkAction "n2" .NETWORK_REQUEST [("url", "http://evil.malicious.com/x")] "ag")
    rfl (by norm_num) ⟨"malicious.com", by decide, by decide⟩).1

theorem aggregate_nonempty (valid : List ThreatAssessment) (m : ThreatAssessment)
    (hm : maxByLevel valid = some m) :
    (_aggregate_assessments valid).threat_level = m.threat_level ∧
      (_aggregate_assessments valid).recommended_action = m.recommended_action ∧
      (_aggregate_assessments valid).reasons = valid.flatMap (fun a => a.reasons) ∧
      (_aggregate_assessments valid).confidence =
        (valid.map (fun a => a.confidence)).sum / (valid.length : ℚ) := by
  unfold _aggregate_assessments
  rw [hm]
  exact ⟨rfl, rfl, rfl, rfl⟩

theorem process_action_cases (cfg : OracleEscalationConfig)
    (perimeter heuristics oracle : List LayerCallback) (action : AIAction) :
    (process_action cfg perimeter heuristics oracle action).assessment =
        _aggregate_assessments (process_action cfg perimeter heuristics oracle action).contributing ∨
      ∃ p, (process_action cfg perimeter heuristics oracle action).contributing = [p] ∧
        (process_action cfg perimeter heuristics oracle action).assessment = p := by
  unfold process_action
  cases hp : _run_layer_callbacks perimeter action with
  | none => left; rfl
  | some p =>
      by_cases hl : ThreatLevel.DANGEROUS.value ≤ p.threat_level.value
      · right
        exact ⟨p, by simp [hl], by simp [hl]⟩
      · left
        simp [hl]

theorem foldl_maxStep_ge_init (rest : List ThreatAssessment) (a : ThreatAssessment) :
    a.threat_level.value ≤ (rest.foldl maxStep a).threat_level.value := by
  induction rest generalizing a with
  | nil => simp
  | cons b bs ih =>
      simp only [List.foldl_cons, maxStep]
      by_cases hab : a.threat_level.value < b.threat_level.value
      · exact le_trans (le_of_lt hab) (by simpa [hab] using ih b)
      · simpa [hab] using ih a

theorem foldl_maxStep_mem (rest : List ThreatAssessment) (a : ThreatAssessment) :
    rest.foldl maxStep a = a ∨ rest.foldl maxStep a ∈ rest := by
  induction rest generalizing a with
  | nil => simp
  | cons b bs ih =>
      simp only [List.foldl_cons, maxStep]
      by_cases hab : a.threat_level.value < b.threat_level.value
      · simp only [hab, if_true]
        rcases ih b with h | h
        · exact Or.inr (by simp [h])
        · exact Or.inr (by simp [h])
      · simp only [hab, if_false]
        rcases ih a with h | h
        · exact Or.inl h
        · exact Or.inr (by simp [h])

theorem foldl_maxStep_is_max (rest : List ThreatAssessment) (a : ThreatAssessment) :
    ∀ b ∈ rest, b.threat_level.value ≤ (rest.foldl maxStep a).threat_level.value := by
  induction rest generalizing a with
  | nil => simp
  | cons b bs ih =>
      intro c hc
      rw [List.mem_cons] at hc
      simp only [List.foldl_cons, maxStep]
      by_cases hab : a.threat_level.value < b.threat_level.value
      · simp only [hab, if_true]
        rcases hc with rfl | hc
        · exact foldl_maxStep_ge_init bs c
        · exact ih b c hc
      · simp only [hab, if_false]
        rcases hc with rfl | hc
        · exact le_trans (not_lt.mp hab) (foldl_maxStep_ge_init bs a)
        · exact ih a c hc

theorem maxByLevel_mem (l : List ThreatAssessment) (m : ThreatAssessment)
    (hm : maxByLevel l = some m) : m ∈ l := by
  cases l with
  | nil => simp [maxByLevel] at hm
  | cons a rest =>
      have h : rest.foldl maxStep a = m := by simpa [maxByLevel] using hm
      rcases foldl_maxStep_mem rest a with h' | h'
      · rw [h] at h'; simp [← h']
      · rw [h] at h'; exact List.mem_cons_of_mem _ h'

theorem maxByLevel_is_max (l : List ThreatAssessment) (m : ThreatAssessment)
    (hm : maxByLevel l = some m) :
    ∀ b ∈ l, b.threat_level.value ≤ m.threat_level.value := by
  cases l with
  | nil => simp [maxByLevel] at hm
  | cons a rest =>
      have h : rest.foldl maxStep a = m := by simpa [maxByLevel] using hm
      intro b hb
      rw [List.mem_cons] at hb
      rcases hb with rfl | hb
      · rw [← h]; exact foldl_maxStep_ge_init rest b
      · rw [← h]; exact foldl_maxStep_is_max rest a b hb

/-- C5: whenever at least one layer contributed an assessment,
`process_action`'s result carries the most severe contributing result's
threat level and recommended action, the concatenation of all
contributing reasons in layer order, and the arithmetic mean of the
contributing confidences; with no contributing layer it yields a
SAFE/ALLOW assessment. -/
theorem process_action_aggregates_most_severe (cfg : OracleEscalationConfig)
    (perimeter heuristics oracle : List LayerCallback) (action : AIAction) :
    ((process_action cfg perimeter heuristics oracle action).contributing ≠ [] →
        AggregationSpec (process_action cfg perimeter heuristics oracle action)) ∧
      ((process_action cfg perimeter heuristics oracle action).contributing = [] →
        (process_action cfg perimeter heuristics oracle action).assessment.threat_level =
            .SAFE ∧
          (process_action cfg perimeter heuristics oracle action).assessment.recommended_action =
            .ALLOW) := by
  rcases process_action_cases cfg perimeter heuristics oracle action with hc | ⟨p, hcon, hass⟩
  · constructor
    · intro hne
      obtain ⟨m, hm⟩ : ∃ m,
          maxByLevel (process_action cfg perimeter heuristics oracle action).contributing =
            some m := by
        cases h : (process_action cfg perimeter heuristics oracle action).contributing with
        | nil => exact absurd h hne
        | cons a rest => exact ⟨rest.foldl maxStep a, rfl⟩
      obtain ⟨h1, h2, h3, h4⟩ := aggregate_nonempty _ m hm
      exact ⟨m, hm, maxByLevel_mem _ m hm, maxByLevel_is_max _ m hm,
        by rw [hc]; exact h1, by rw [hc]; exact h2, by rw [hc]; exact h3,
        by rw [hc]; exact h4⟩
    · intro hnil
      rw [hc, hnil]
      exact ⟨rfl, rfl⟩
  · constructor
    · intro _
      refine ⟨p, by rw [hcon]; rfl, by rw [hcon]; simp, ?_, by rw [hass],
        by rw [hass], ?_, ?_⟩
      · rw [hcon]
        intro b hb
        rw [List.mem_singleton] at hb
        subst hb
        exact le_refl _
      · rw [hass, hcon]
        simp
      · rw [hass, hcon]
        simp
    · intro hnil
      rw [hcon] at hnil
      cases hnil

theorem process_action_aggregates_most_severe_witness :
    AggregationSpec (process_action {}
      [fun a => some
        { action_id := a.action_id, threat_level := .SUSPICIOUS, confidence := 1/2,
          reasons := ["r"], recommended_action := .REQUIRE_APPROVAL,
          analysis_layer := "perimeter" }]
      [] [] (mkAction "a1" .API_CALL [] "ag")) ∧
    ((process_action {} [] [] [] (mkAction "a2" .API_CALL [] "ag")).assessment.threat_level =
        .SAFE ∧
      (process_action {} [] [] [] (mkAction "a2" .API_CALL [] "ag")).assessment.recommended_action =
        .ALLOW) :=
  ⟨(process_action_aggregates_most_severe {}
      [fun a => some
        { action_id := a.action_id, threat_level := .SUSPICIOUS, confidence := 1/2,
          reasons := ["r"], recommended_action := .REQUIRE_APPROVAL,
          analysis_layer := "perimeter" }]
      [] [] (mkAction "a1" .API_CALL [] "ag")).1 (by decide),
   (process_action_aggregates_most_severe {} [] [] []
      (mkAction "a2" .API_CALL [] "ag")).2 rfl⟩


/-- C9: an agent whose last three recorded action types are exactly
[file_operation, code_execution, self_modification] (the third being the
action under analysis) gets from `HeuristicAnalyzer.analyze` an
assessment of threat level at least DANGEROUS: the catalogue gives the
sequence weight 0.9, which the score bands map to CRITICAL, and the
returned maximum can only be more severe, whatever the other four
detectors report. -/
theorem privilege_escalation_sequence_dangerous (prev_sequence : List String)
    (action : AIAction)
    (deviation temporal interaction escalation : Option ThreatAssessment)
    (hseq : lastN 3 (prev_sequence ++ [action.action_type.value]) =
      ["file_operation", "code_execution", "self_modification"]) :
    ∃ a, heuristics_analyze prev_sequence action deviation temporal interaction
        escalation = some a ∧
      ThreatLevel.DANGEROUS.value ≤ a.threat_level.value := by
  have hlen : 3 ≤ (prev_sequence ++ [action.action_type.value]).length := by
    by_contra h
    push_neg at h
    have hzero : (prev_sequence ++ [action.action_type.value]).length - 3 = 0 := by omega
    have hdrop : lastN 3 (prev_sequence ++ [action.action_type.value]) =
        prev_sequence ++ [action.action_type.value] := by
      unfold lastN
      rw [hzero, List.drop_zero]
    rw [hdrop] at hseq
    have hlen3 := congrArg List.length hseq
    simp only [List.length_cons, List.length_nil] at hlen3
    omega
  have hplen : 2 ≤ prev_sequence.length := by
    simp only [List.length_append, List.length_cons, List.length_nil] at hlen
    omega
  have h3 : ¬ (prev_sequence ++ [action.action_type.value]).length < 3 := by
    simp only [List.length_append, List.length_cons, List.length_nil]
    omega
  have hcalc : _calculate_threat_level (9/10) = .CRITICAL := by
    unfold _calculate_threat_level
    rw [if_pos (by norm_num)]
  have h3q : ¬ prev_sequence.length + 1 < 3 := by omega
  have hfind : findMatchingPattern (prev_sequence ++ [action.action_type.value])
      suspicious_patterns =
      some ⟨"privilege_escalation",
        ["file_operation", "code_execution", "self_modification"], 9/10⟩ := by
    unfold suspicious_patterns findMatchingPattern
    simp [h3q, hseq]
  have hdetect : _detect_suspicious_patterns
      (prev_sequence ++ [action.action_type.value]) action = some
      { action_id := action.action_id, threat_level := .CRITICAL, confidence := 9/10,
        reasons := ["Padrão suspeito detectado: privilege_escalation",
          "Sequência: " ++ String.intercalate " → "
            ["file_operation", "code_execution", "self_modification"]],
        recommended_action := _recommend_action .CRITICAL,
        analysis_layer := "heuristics" } := by
    unfold _detect_suspicious_patterns
    rw [if_neg h3, hfind]
    simp [hcalc]
  have hform : heuristics_analyze prev_sequence action deviation temporal interaction
      escalation = maxByLevel
      ({ action_id := action.action_id, threat_level := .CRITICAL, confidence := 9/10,
          reasons := ["Padrão suspeito detectado: privilege_escalation",
            "Sequência: " ++ String.intercalate " → "
              ["file_operation", "code_execution", "self_modification"]],
          recommended_action := _recommend_action .CRITICAL,
          analysis_layer := "heuristics" } ::
        [deviation, temporal, interaction, escalation].filterMap id) := by
    unfold heuristics_analyze
    simp only [hdetect, List.filterMap_cons, id_eq]
  rw [hform]
  refine ⟨_, rfl, ?_⟩
  refine le_trans ?_ (foldl_maxStep_ge_init _ _)
  show ThreatLevel.DANGEROUS.value ≤ ThreatLevel.CRITICAL.value
  decide

theorem privilege_escalation_sequence_dangerous_witness :
    ∃ a, heuristics_analyze ["file_operation", "code_execution"]
        (mkAction "h1" .SELF_MODIFICATION [] "ag") none none none none = some a ∧
      ThreatLevel.DANGEROUS.value ≤ a.threat_level.value :=
  privilege_escalation_sequence_dangerous ["file_operation", "code_execution"]
    (mkAction "h1" .SELF_MODIFICATION [] "ag") none none none none (by decide)

/-- C10: when no layer contributes, the synthesized SAFE/ALLOW
assessment carries the literal action id `"unknown"` rather than the
processed action id, and `get_agent_report` — which correlates threats
to an agent through the action ids recorded in the history — never
attributes it to any agent whose history holds no action with id
`"unknown"`. -/
theorem unknown_assessment_never_matched (cfg : OracleEscalationConfig)
    (perimeter heuristics oracle : List LayerCallback) (action : AIAction)
    (history : List AIAction) (th : List ThreatAssessment) (agent_id : String)
    (hcontrib : (process_action cfg perimeter heuristics oracle action).contributing = [])
    (hids : ∀ a ∈ history, a.action_id ≠ "unknown") :
    (process_action cfg perimeter heuristics oracle action).assessment.action_id =
        "unknown" ∧
      (process_action cfg perimeter heuristics oracle action).assessment ∉
        agent_threats history th agent_id := by
  have hass : (process_action cfg perimeter heuristics oracle action).assessment =
      _aggregate_assessments [] := by
    rcases process_action_cases cfg perimeter heuristics oracle action with hc | ⟨p, hcon, _⟩
    · rw [hc, hcontrib]
    · rw [hcon] at hcontrib
      cases hcontrib
  constructor
  · rw [hass]
    rfl
  · rw [hass]
    intro hmem
    unfold agent_threats at hmem
    rw [List.mem_filter] at hmem
    obtain ⟨-, hpred⟩ := hmem
    rw [List.any_eq_true] at hpred
    obtain ⟨a, hain, hdec⟩ := hpred
    rw [List.mem_filter] at hain
    rw [decide_eq_true_eq] at hdec
    exact hids a hain.1 (hdec.1.trans rfl)

theorem unknown_assessment_never_matched_witness :
    (process_action {} [] [] [] (mkAction "a3" .API_CALL [] "ag")).assessment.action_id =
        "unknown" ∧
      (process_action {} [] [] [] (mkAction "a3" .API_CALL [] "ag")).assessment ∉
        agent_threats [mkAction "a3" .API_CALL [] "ag"]
          [(process_action {} [] [] [] (mkAction "a3" .API_CALL [] "ag")).assessment] "ag" :=
  unknown_assessment_never_matched {} [] [] [] (mkAction "a3" .API_CALL [] "ag")
    [mkAction "a3" .API_CALL [] "ag"]
    [(process_action {} [] [] [] (mkAction "a3" .API_CALL [] "ag")).assessment] "ag"
    rfl (by decide)

end Shield
